import Mathlib

/-!
Shallow embedding of the batch image-editing pipeline of this repository
(`src/image_processor.py` and `src/streamlit_app.py`), together with theorems
about its validation, deduplication, normalization, retry/classification,
batch-orchestration and archive-packaging behavior.

External library calls (PIL decoding/encoding, hashlib digests, the
HuggingFace remote call, the environment) are modelled as explicit oracle
parameters; everything the repository's own code does with their results is
embedded directly.
-/

/-- Raw file content, one natural number per byte. -/
abbrev Bytes := List Nat

/- ### String helpers mirroring the Python primitives used by the source -/

/-- Character-wise lower-casing, modelling Python `str.lower()` on the ASCII
text the source compares against. -/
def lowerStr (s : String) : String := String.mk (s.data.map Char.toLower)

/-- The whitespace characters removed by Python `str.strip()`. -/
def isSpaceChar (c : Char) : Bool :=
  c == ' ' || c == '\t' || c == '\n' || c == '\r' || c == '\x0b' || c == '\x0c'

/-- Python `str.strip()`: drop leading and trailing whitespace. -/
def pyStrip (s : String) : String :=
  String.mk ((((s.data.dropWhile isSpaceChar).reverse.dropWhile isSpaceChar).reverse))

/-- Whether the first list is an initial segment of the second. -/
def subAt : List Char → List Char → Bool
  | [], _ => true
  | _ :: _, [] => false
  | a :: pa, b :: sb => a == b && subAt pa sb

/-- Whether `pat` occurs inside the second list, at any position. -/
def hasSubChars (pat : List Char) : List Char → Bool
  | [] => subAt pat []
  | s@(_ :: rest) => subAt pat s || hasSubChars pat rest

/-- Python substring containment `pat in s`. -/
def hasSub (pat s : String) : Bool := hasSubChars pat.data s.data

/-- One decimal digit as a character. -/
def digitChar (d : Nat) : Char :=
  match d with
  | 0 => '0' | 1 => '1' | 2 => '2' | 3 => '3' | 4 => '4'
  | 5 => '5' | 6 => '6' | 7 => '7' | 8 => '8' | _ => '9'

/-- Fuel-driven decimal printer (the fuel is an upper bound on the digit
count, letting the definition be structural). -/
def repCharsAux : Nat → Nat → List Char
  | 0, _ => []
  | fuel + 1, n =>
    if n < 10 then [digitChar n]
    else repCharsAux fuel (n / 10) ++ [digitChar (n % 10)]

/-- Decimal rendering of a natural number, modelling Python `str(n)` /
`f"{n:d}"`. -/
def repChars (n : Nat) : List Char := repCharsAux (n + 1) n

/-- Python `f"{n:02d}"`: the decimal rendering, zero-padded on the left to at
least two characters. -/
def py02d (n : Nat) : List Char :=
  if n < 10 then '0' :: repChars n else repChars n

/- ### Configuration constants (streamlit_app.py lines 17-19,
image_processor.py lines 10-11) -/

/-- `MAX_FILE_SIZE = 10 * 1024 * 1024`. -/
def MAX_FILE_SIZE : Nat := 10 * 1024 * 1024

/-- `MAX_FILES = 15`. -/
def MAX_FILES : Nat := 15

/-- `SUPPORTED_FORMATS = ['png', 'jpg', 'jpeg', 'webp']`. -/
def SUPPORTED_FORMATS : List String := ["png", "jpg", "jpeg", "webp"]

/- ### Data model -/

/-- An uploaded file as the code sees it: a claimed name, a claimed size and
the raw content bytes (streamlit's UploadedFile). -/
structure UploadFile where
  name : String
  size : Nat
  content : Bytes
deriving DecidableEq

/-- What the image decoder reports about a decodable image: dimensions, the
declared container format and the color mode (PIL's `Image`, abstracted). -/
structure DecodedImage where
  width : Nat
  height : Nat
  format : Option String
  mode : String
deriving DecidableEq

/-- Oracle for `PIL.Image.open` over a byte payload: either a decoded image or
the exception text it raises. -/
abbrev Decoder := Bytes → Except String DecodedImage

/- ### Validator (image_processor.py, validate_image, lines 45-97) -/

/-- Extension extraction from validate_image line 56:
`file.name.split('.')[-1].lower() if '.' in file.name else ''` — the
lower-cased segment after the last dot, or the empty string for a dotless
name. -/
def extOf (name : String) : String :=
  if name.data.any (fun c => c == '.') then
    String.mk ((name.data.reverse.takeWhile (fun c => c != '.')).reverse.map Char.toLower)
  else ""

/-- The rejection reasons of validate_image, one constructor per distinct
error branch, carrying the data the corresponding message interpolates. -/
inductive Reject
  | fileTooLarge (size : Nat)
  | unsupportedFormat (ext : String)
  | emptyFile
  | corruptImage (msg : String)
  | imageTooLarge (width height : Nat)
  | imageTooSmall (width height : Nat)
deriving DecidableEq

/-- The dictionary validate_image returns: either the valid record (size,
dimensions string, format, mode, bytes) or an invalid record with its
reason. -/
inductive ValidationResult
  | valid (size : Nat) (dimensions : String) (format : String) (mode : String) (content : Bytes)
  | invalid (reason : Reject)
deriving DecidableEq

/-- validate_image: size, extension, emptiness, decodability and dimension
checks, in the source's order, each short-circuiting; a decoder failure is
caught by the surrounding try/except and wrapped as an invalid result. -/
def validate_image (decode : Decoder) (file : UploadFile) : ValidationResult :=
  if file.size > MAX_FILE_SIZE then .invalid (.fileTooLarge file.size)
  else if extOf file.name ∉ SUPPORTED_FORMATS then .invalid (.unsupportedFormat (extOf file.name))
  else if file.content.length = 0 then .invalid .emptyFile
  else
    match decode file.content with
    | .error e => .invalid (.corruptImage ("Invalid image file: " ++ e))
    | .ok image =>
      if image.width > 4000 ∨ image.height > 4000 then
        .invalid (.imageTooLarge image.width image.height)
      else if image.width < 50 ∨ image.height < 50 then
        .invalid (.imageTooSmall image.width image.height)
      else
        .valid file.size
          (String.mk (repChars image.width) ++ "x" ++ String.mk (repChars image.height))
          (image.format.getD "Unknown") image.mode file.content

/- ### Deduplicator and session (streamlit_app.py lines 33-36, 157-194) -/

/-- Digest oracles modelling Python hashlib (external library): the MD5 hex
digest of a byte payload and the SHA-256 hex digest of a string. -/
structure HashImpl where
  md5Hex : Bytes → String
  sha256Hex : String → String

/-- create_file_hash: sha256 of `f"{filename}_{len(content)}_{md5hex}"`,
truncated to its first 12 characters. -/
def create_file_hash (impl : HashImpl) (file_content : Bytes) (filename : String) : String :=
  let hash_input :=
    filename ++ "_" ++ String.mk (repChars file_content.length) ++ "_" ++ impl.md5Hex file_content
  String.mk ((impl.sha256Hex hash_input).data.take 12)

/-- One entry of `st.session_state.uploaded_files_data` (lines 179-187). -/
structure FileData where
  filename : String
  size : Nat
  dimensions : String
  format : String
  mode : String
  bytes : Bytes
  hash : String
deriving DecidableEq

/-- The session store: the fingerprint-keyed, insertion-ordered dict. -/
abbrev Session := List (String × FileData)

/-- One iteration of the upload loop (lines 169-193): fingerprint the file,
skip it when the fingerprint is already present, otherwise validate and
either insert the entry or record the rejection. -/
def processUpload (impl : HashImpl) (decode : Decoder)
    (acc : Session × List (String × Reject)) (file : UploadFile) :
    Session × List (String × Reject) :=
  let sess := acc.1
  let invalid := acc.2
  let fh := create_file_hash impl file.content file.name
  if (sess.map Prod.fst).contains fh then (sess, invalid)
  else
    match validate_image decode file with
    | .valid size dims fmt mode bytes =>
      (sess ++ [(fh, ⟨file.name, size, dims, fmt, mode, bytes, fh⟩)], invalid)
    | .invalid r => (sess, invalid ++ [(file.name, r)])

/-- One upload event (lines 157-194): truncate the candidate list to
MAX_FILES, then run the upload loop over it against the current session. -/
def uploadEvent (impl : HashImpl) (decode : Decoder) (sess : Session)
    (files : List UploadFile) : Session × List (String × Reject) :=
  (if files.length > MAX_FILES then files.take MAX_FILES else files).foldl
    (processUpload impl decode) (sess, [])

/- ### Normalizer (image_processor.py lines 117-142) -/

/-- Which branch of the mode-normalization code (lines 123-130) runs. -/
inductive PrepOp
  | keep
  | whiteComposite
  | convertRGB
deriving DecidableEq

/-- Branch selection of lines 123-130: RGB and L pass through, RGBA is pasted
onto a white RGB background through its alpha mask, everything else goes
through `convert('RGB')`. -/
def prepOp (mode : String) : PrepOp :=
  if mode = "RGB" ∨ mode = "L" then .keep
  else if mode = "RGBA" then .whiteComposite
  else .convertRGB

/-- Modelled from the PIL documentation (external library): the color modes
that carry an alpha channel. -/
def pilHasAlpha (mode : String) : Bool :=
  ["RGBA", "LA", "PA", "RGBa", "La"].contains mode

/-- The mode-normalization step applied to the decoded image: both the white
composite and the conversion produce an RGB image of the same dimensions. -/
def prepImage (image : DecodedImage) : DecodedImage :=
  match prepOp image.mode with
  | .keep => image
  | .whiteComposite => { image with mode := "RGB" }
  | .convertRGB => { image with mode := "RGB" }

/- ### RemoteEditClient (image_processor.py lines 99-200) -/

/-- The per-item processing outcome dictionary. -/
inductive PResult
  | success (filename : String) (image_bytes : Bytes) (image_obj : DecodedImage)
      (original_size result_size : Nat)
  | failure (filename : String) (error : String)
deriving DecidableEq

/-- Whether the result dict has `success: True`. -/
def PResult.isSucc : PResult → Bool
  | .success .. => true
  | .failure .. => false

/-- The six error kinds of the remote-failure taxonomy, one per classification
branch of lines 176-187. -/
inductive ErrKind
  | incompatibleFormat
  | timeout
  | quotaExceeded
  | authenticationError
  | modelUnavailable
  | unknownRemoteError
deriving DecidableEq

/-- Error classification of lines 174-187: inspect the lower-cased error text
for substrings in the source's precedence order; yields the branch's taxonomy
kind together with the exact message string the code builds. -/
def classify_error (msg : String) : ErrKind × String :=
  let m := lowerStr msg
  if hasSub "images" m || hasSub "parameter" m then
    (.incompatibleFormat, "API parameter error - image format may be incompatible")
  else if hasSub "timeout" m then
    (.timeout, "Request timeout - try with a smaller image")
  else if hasSub "quota" m || hasSub "rate limit" m then
    (.quotaExceeded, "API quota exceeded - please wait before trying again")
  else if hasSub "unauthorized" m || hasSub "token" m then
    (.authenticationError, "Authentication error - check your HF_TOKEN")
  else if hasSub "model" m then
    (.modelUnavailable, "Model not available - try again later")
  else
    (.unknownRemoteError, "API error: " ++ msg)

/-- One attempt of the API try-block (lines 147-166): the remote call followed
by PNG-encoding its result; any exception inside the block is the attempt's
error. `call` and `rsave` are oracles for the remote service and for PIL's
`save`. -/
def attemptOnce (call : Nat → Except String DecodedImage)
    (rsave : DecodedImage → Except String Bytes) (attempt : Nat) :
    Except String (DecodedImage × Bytes) :=
  match call attempt with
  | .error e => .error e
  | .ok edited =>
    match rsave edited with
    | .error e => .error e
    | .ok result_bytes => .ok (edited, result_bytes)

/-- `max_retries = 2` (line 145). -/
def max_retries : Nat := 2

/-- The retry loop `for attempt in range(max_retries)` with `max_retries = 2`,
unrolled: run attempt 0; on failure sleep and run attempt 1, whose outcome is
final. -/
def apiLoop (att : Nat → Except String (DecodedImage × Bytes)) :
    Except String (DecodedImage × Bytes) :=
  match att 0 with
  | .ok r => .ok r
  | .error _ => att 1

/-- How many attempts the retry loop consumes. -/
def callsMade (att : Nat → Except String (DecodedImage × Bytes)) : Nat :=
  match att 0 with
  | .ok _ => 1
  | .error _ => 2

/-- process_single_image: guard the input bytes and the prompt, normalize the
image to PNG (decode, mode-normalize, re-encode — failures become a
per-item preprocessing failure), then run the remote call with retry and
classify the final failure. The `api` oracle receives the processed bytes,
the stripped prompt and the attempt number. -/
def process_single_image (decode : Decoder)
    (encodePNG : DecodedImage → Except String Bytes)
    (api : Bytes → String → Nat → Except String DecodedImage)
    (rsave : DecodedImage → Except String Bytes)
    (image_bytes : Bytes) (prompt : String) (filename : String) : PResult :=
  if image_bytes.length = 0 then .failure filename "Invalid image data format"
  else if prompt = "" ∨ pyStrip prompt = "" then .failure filename "Empty prompt"
  else
    match decode image_bytes with
    | .error e => .failure filename ("Image preprocessing failed: " ++ e)
    | .ok image =>
      match encodePNG (prepImage image) with
      | .error e => .failure filename ("Image preprocessing failed: " ++ e)
      | .ok processed_bytes =>
        match apiLoop (attemptOnce (api processed_bytes (pyStrip prompt)) rsave) with
        | .ok r => .success filename r.2 r.1 image_bytes.length r.2.length
        | .error e => .failure filename (classify_error e).2

/- ### BatchOrchestrator (streamlit_app.py lines 281-299) -/

/-- The batch loop of main: process every session item in iteration order
against the one shared prompt, appending exactly one result per item. -/
def runBatch (decode : Decoder) (encodePNG : DecodedImage → Except String Bytes)
    (api : Bytes → String → Nat → Except String DecodedImage)
    (rsave : DecodedImage → Except String Bytes)
    (sess : Session) (prompt : String) : List PResult :=
  sess.map (fun kv => process_single_image decode encodePNG api rsave kv.2.bytes prompt kv.2.filename)

/- ### ArchiveBuilder (streamlit_app.py lines 38-53) -/

/-- The characters create_zip_download keeps while sanitizing:
`c.isalnum() or c in (' ', '-', '_')`. -/
def allowedChar (c : Char) : Bool := c.isAlphanum || c == ' ' || c == '-' || c == '_'

/-- The base component of `os.path.splitext` (Python stdlib, modelled from its
documented behavior): the name up to its last dot, unless every character
before that dot is itself a dot, in which case nothing is split off. -/
def splitextBase (name : String) : String :=
  match name.data.reverse.dropWhile (fun c => c != '.') with
  | [] => name
  | _ :: pre => if pre.reverse.any (fun c => c != '.') then String.mk pre.reverse else name

/-- Sanitization of line 47: keep only the allowed characters of the base
name, then `strip()` the result. -/
def sanitize (s : String) : String :=
  String.mk ((((s.data.filter allowedChar).dropWhile isSpaceChar).reverse.dropWhile
    isSpaceChar).reverse)

/-- The ZIP entry name of line 48: `f"{i+1:02d}_edited_{safe_name}.png"`. -/
def zip_filename (n : Nat) (filename : String) : String :=
  String.mk (py02d n ++ "_edited_".data ++ (sanitize (splitextBase filename)).data ++ ".png".data)

/-- The loop of create_zip_download: enumerate the results, writing one named
entry per successful result. -/
def zipEntries : Nat → List PResult → List (String × Bytes)
  | _, [] => []
  | i, .success fn bs _ _ _ :: rest => (zip_filename (i + 1) fn, bs) :: zipEntries (i + 1) rest
  | i, .failure _ _ :: rest => zipEntries (i + 1) rest

/-- create_zip_download, modelled as the ordered list of (entry name, entry
bytes) pairs written into the archive (the deflate container itself is the
external zipfile library). -/
def create_zip_download (results : List PResult) : List (String × Bytes) :=
  zipEntries 0 results

/- ### Client initialization (image_processor.py lines 20-43, streamlit_app.py
lines 91-94) -/

/-- The two ways _initialize_client can stop the app: the distinct
missing-credential condition, or a client-construction failure. -/
inductive InitError
  | missingCredential
  | initFailed (msg : String)
deriving DecidableEq

/-- The constructed InferenceClient, abstracted to its credential. -/
structure Client where
  api_key : String
deriving DecidableEq

/-- _initialize_client: read HF_TOKEN from the environment; when it is absent
or empty (`if not token`) stop with the missing-credential condition before
any client exists; otherwise build the client (`connect` oracle), turning a
construction failure into its own condition. -/
def initializeClient (env : String → Option String)
    (connect : String → Except String Client) : Except InitError Client :=
  match env "HF_TOKEN" with
  | none => .error .missingCredential
  | some token =>
    if token = "" then .error .missingCredential
    else
      match connect token with
      | .error e => .error (.initFailed e)
      | .ok c => .ok c

/-- Startup followed by one batch run (main lines 91-94 and 281-299): the
processor is constructed first and a failure there stops the app, so no batch
ever starts. -/
def runApp (env : String → Option String) (connect : String → Except String Client)
    (decode : Decoder) (encodePNG : DecodedImage → Except String Bytes)
    (api : Bytes → String → Nat → Except String DecodedImage)
    (rsave : DecodedImage → Except String Bytes)
    (sess : Session) (prompt : String) : Except InitError (List PResult) :=
  match initializeClient env connect with
  | .error e => .error e
  | .ok _ => .ok (runBatch decode encodePNG api rsave sess prompt)

/- ### Proof helpers: recovering the index from a ZIP entry name -/

/-- Reading a digit string back as a number (proof helper). -/
def parseNum (l : List Char) : Nat := l.foldl (fun a c => 10 * a + (c.toNat - 48)) 0

/-- The numeric prefix of a ZIP entry name (proof helper). -/
def nameIdx (s : String) : Nat := parseNum (s.data.takeWhile Char.isDigit)

/- ### Concrete fixtures used by witnesses and counterexamples -/

/-- Toy digest oracles (a stand-in instantiation of the hashlib interface for
concrete evaluation): distinct short inputs keep distinct fingerprints. -/
def toyHash : HashImpl := { md5Hex := fun _ => "zz", sha256Hex := fun s => s }

/-- Decoder oracle accepting every payload as a 100 by 100 RGB PNG. -/
def toyDecode : Decoder := fun _ => .ok ⟨100, 100, some "PNG", "RGB"⟩

/-- n distinct one-byte png candidates. -/
def toyFiles (n : Nat) : List UploadFile :=
  (List.range n).map (fun i => ⟨"f" ++ String.mk (repChars i) ++ ".png", 1, [i]⟩)

/- ### Theorems -/

/-- Reduction of validate_image once the size, extension and emptiness checks
pass and the decoder succeeds. -/
theorem validate_decode_ok (decode : Decoder) (file : UploadFile) (image : DecodedImage)
    (h1 : file.size ≤ MAX_FILE_SIZE) (h2 : extOf file.name ∈ SUPPORTED_FORMATS)
    (h3 : file.content.length ≠ 0) (h4 : decode file.content = .ok image) :
    validate_image decode file =
      (if image.width > 4000 ∨ image.height > 4000 then
        .invalid (.imageTooLarge image.width image.height)
      else if image.width < 50 ∨ image.height < 50 then
        .invalid (.imageTooSmall image.width image.height)
      else
        .valid file.size
          (String.mk (repChars image.width) ++ "x" ++ String.mk (repChars image.height))
          (image.format.getD "Unknown") image.mode file.content) := by
  unfold validate_image
  rw [if_neg (by omega), if_neg (fun hc => hc h2), if_neg h3, h4]

/-- C3: validation applies its checks in the source's order, short-circuiting
on the first failure: any candidate above 10 MiB is rejected as file-too-large
regardless of content; once the size, extension, non-emptiness and
decodability checks pass, validation succeeds exactly when both dimensions lie
in the closed range [50, 4000], rejecting a dimension above 4000 as
image-too-large and otherwise a dimension below 50 as image-too-small. -/
theorem validation_order_and_bounds (decode : Decoder) (file : UploadFile) :
    (file.size > MAX_FILE_SIZE →
      validate_image decode file = .invalid (.fileTooLarge file.size)) ∧
    (file.size ≤ MAX_FILE_SIZE → extOf file.name ∉ SUPPORTED_FORMATS →
      validate_image decode file = .invalid (.unsupportedFormat (extOf file.name))) ∧
    (file.size ≤ MAX_FILE_SIZE → extOf file.name ∈ SUPPORTED_FORMATS →
      file.content.length = 0 → validate_image decode file = .invalid .emptyFile) ∧
    (∀ image, file.size ≤ MAX_FILE_SIZE → extOf file.name ∈ SUPPORTED_FORMATS →
      file.content.length ≠ 0 → decode file.content = .ok image →
      ((∃ d fm m b, validate_image decode file = .valid file.size d fm m b) ↔
        (50 ≤ image.width ∧ image.width ≤ 4000 ∧ 50 ≤ image.height ∧ image.height ≤ 4000)) ∧
      (image.width > 4000 ∨ image.height > 4000 →
        validate_image decode file = .invalid (.imageTooLarge image.width image.height)) ∧
      (image.width ≤ 4000 → image.height ≤ 4000 →
        (image.width < 50 ∨ image.height < 50) →
        validate_image decode file = .invalid (.imageTooSmall image.width image.height))) := by
  refine ⟨fun h => by unfold validate_image; rw [if_pos h], fun h1 h2 => ?_,
    fun h1 h2 h3 => ?_, fun image h1 h2 h3 h4 => ?_⟩
  · unfold validate_image; rw [if_neg (by omega), if_pos h2]
  · unfold validate_image; rw [if_neg (by omega), if_neg (fun hc => hc h2), if_pos h3]
  · rw [validate_decode_ok decode file image h1 h2 h3 h4]
    refine ⟨?_, fun h5 => by rw [if_pos h5],
      fun h5 h6 h7 => by rw [if_neg (by omega), if_pos h7]⟩
    constructor
    · rintro ⟨d, fm, m, b, hv⟩
      by_cases hL : image.width > 4000 ∨ image.height > 4000
      · rw [if_pos hL] at hv; exact absurd hv (by simp)
      · rw [if_neg hL] at hv
        by_cases hS : image.width < 50 ∨ image.height < 50
        · rw [if_pos hS] at hv; exact absurd hv (by simp)
        · omega
    · intro hin
      rw [if_neg (by omega), if_neg (by omega)]
      exact ⟨_, _, _, _, rfl⟩

/-- C3 witness: a 3-byte png-named candidate decoding to a 100 by 200 image is
accepted. -/
theorem validation_order_and_bounds_witness :
    ∃ d fm m b, validate_image (fun _ => .ok ⟨100, 200, some "PNG", "RGB"⟩)
      ⟨"a.png", 3, [1, 2, 3]⟩ = .valid 3 d fm m b :=
  ((validation_order_and_bounds (fun _ => .ok ⟨100, 200, some "PNG", "RGB"⟩)
      ⟨"a.png", 3, [1, 2, 3]⟩).2.2.2 ⟨100, 200, some "PNG", "RGB"⟩ (by decide) (by decide)
      (by decide) rfl).1.mpr (by decide)

/-- C9: validation is total — every input yields either a tagged valid or a
tagged invalid result, never an escaping exception — and a decoder failure is
captured and returned as an invalid result whose error message wraps the
decoder's exception text. -/
theorem validation_total_and_captures (decode : Decoder) (file : UploadFile) :
    ((∃ r, validate_image decode file = .invalid r) ∨
      (∃ s d fm m b, validate_image decode file = .valid s d fm m b)) ∧
    (file.size ≤ MAX_FILE_SIZE → extOf file.name ∈ SUPPORTED_FORMATS →
      file.content.length ≠ 0 → ∀ e, decode file.content = .error e →
        validate_image decode file =
          .invalid (.corruptImage ("Invalid image file: " ++ e))) := by
  constructor
  · cases hr : validate_image decode file with
    | valid s d fm m b => exact .inr ⟨s, d, fm, m, b, rfl⟩
    | invalid r => exact .inl ⟨r, rfl⟩
  · intro h1 h2 h3 e h4
    unfold validate_image
    rw [if_neg (by omega), if_neg (fun hc => hc h2), if_neg h3, h4]

/-- C9 witness: a decoder exception on a small png-named candidate surfaces as
the wrapped invalid-image error. -/
theorem validation_total_and_captures_witness :
    validate_image (fun _ => .error "bad header") ⟨"a.png", 3, [7]⟩ =
      .invalid (.corruptImage ("Invalid image file: " ++ "bad header")) :=
  (validation_total_and_captures (fun _ => .error "bad header") ⟨"a.png", 3, [7]⟩).2
    (by decide) (by decide) (by decide) "bad header" rfl

/-- C10: the extension is the lower-cased segment after the last dot of the
filename; a dotless filename gets the empty extension and, within the size
limit, is always rejected as unsupported format; a multi-dot filename such as
archive.tar.gz is judged only by its final segment. -/
theorem extension_last_segment (decode : Decoder) (file : UploadFile) :
    (¬ file.name.data.any (fun c => c == '.') → extOf file.name = "") ∧
    (file.size ≤ MAX_FILE_SIZE → ¬ file.name.data.any (fun c => c == '.') →
      validate_image decode file = .invalid (.unsupportedFormat "")) ∧
    extOf "archive.tar.gz" = "gz" ∧
    (file.name.data.any (fun c => c == '.') →
      extOf file.name =
        String.mk ((file.name.data.reverse.takeWhile
          (fun c => c != '.')).reverse.map Char.toLower)) := by
  refine ⟨fun h => ?_, fun h1 h2 => ?_, by decide, fun h => ?_⟩
  · unfold extOf; rw [if_neg h]
  · have he : extOf file.name = "" := by unfold extOf; rw [if_neg h2]
    unfold validate_image
    rw [if_neg (by omega), if_pos (by rw [he]; decide), he]
  · unfold extOf; rw [if_pos h]

/-- C10 witness: a dotless filename is rejected with the empty extension. -/
theorem extension_last_segment_witness :
    validate_image (fun _ => .error "x") ⟨"noext", 1, [1]⟩ =
      .invalid (.unsupportedFormat "") :=
  (extension_last_segment (fun _ => .error "x") ⟨"noext", 1, [1]⟩).2.1
    (by decide) (by decide)

/-- Each iteration of the upload loop grows the session by at most one
entry. -/
theorem processUpload_le (impl : HashImpl) (decode : Decoder)
    (acc : Session × List (String × Reject)) (file : UploadFile) :
    (processUpload impl decode acc file).1.length ≤ acc.1.length + 1 := by
  unfold processUpload
  by_cases h : ((acc.1.map Prod.fst).contains (create_file_hash impl file.content file.name)
      = true)
  · rw [if_pos h]; simp
  · rw [if_neg h]
    cases hv : validate_image decode file with
    | valid s d fm m b => simp
    | invalid r => simp

/-- Folding the upload loop grows the session by at most the number of
processed files. -/
theorem foldl_upload_le (impl : HashImpl) (decode : Decoder) :
    ∀ (fs : List UploadFile) (acc : Session × List (String × Reject)),
      ((fs.foldl (processUpload impl decode) acc).1.length ≤ acc.1.length + fs.length) := by
  intro fs
  induction fs with
  | nil => intro acc; simp
  | cons f fs ih =>
    intro acc
    have h1 := ih (processUpload impl decode acc f)
    have h2 := processUpload_le impl decode acc f
    simp only [List.foldl_cons, List.length_cons]
    omega

/-- One upload event grows the session by at most MAX_FILES entries. -/
theorem uploadEvent_le (impl : HashImpl) (decode : Decoder) (sess : Session)
    (files : List UploadFile) :
    (uploadEvent impl decode sess files).1.length ≤ sess.length + MAX_FILES := by
  unfold uploadEvent
  by_cases h : files.length > MAX_FILES
  · rw [if_pos h]
    have h1 := foldl_upload_le impl decode (files.take MAX_FILES) (sess, [])
    have h2 : (files.take MAX_FILES).length ≤ MAX_FILES := by
      rw [List.length_take]; omega
    simp only [] at h1
    omega
  · rw [if_neg h]
    have h1 := foldl_upload_le impl decode files (sess, [])
    simp only [] at h1
    omega

/-- C7 (amended): the 15-file bound is enforced per upload event by truncating
that event's candidate list rather than rejecting the batch, so one event
grows the session by at most 15 entries and a single event over an empty
session leaves at most 15; the bound is per-event only — the session itself
may exceed 15 entries across several events (see the counterexample). -/
theorem session_bound_per_event (impl : HashImpl) (decode : Decoder) (sess : Session)
    (files : List UploadFile) :
    (uploadEvent impl decode sess files).1.length ≤ sess.length + MAX_FILES ∧
    (sess = [] → (uploadEvent impl decode sess files).1.length ≤ MAX_FILES) := by
  refine ⟨uploadEvent_le impl decode sess files, fun hs => ?_⟩
  have := uploadEvent_le impl decode sess files
  rw [hs] at this ⊢
  simpa using this

/-- C7 witness: one upload event over an empty session stays within the
bound. -/
theorem session_bound_per_event_witness :
    (uploadEvent toyHash toyDecode [] (toyFiles 3)).1.length ≤ MAX_FILES :=
  (session_bound_per_event toyHash toyDecode [] (toyFiles 3)).2 rfl

set_option maxRecDepth 100000 in
/-- C7 counterexample: two successive upload events — fifteen fresh files and
then one more fresh file — drive the session to 16 entries, above the claimed
global bound of 15: the insertion loop checks only the fingerprint, never the
session's cardinality, and truncation applies per event only. -/
theorem session_exceeds_bound_counterexample :
    (uploadEvent toyHash toyDecode
      (uploadEvent toyHash toyDecode [] (toyFiles 15)).1 [⟨"g.png", 1, [99]⟩]).1.length = 16 ∧
    16 > MAX_FILES := by
  constructor
  · decide
  · decide

/-- C4: the fingerprint is a deterministic function of bytes and filename,
12 characters long whenever the SHA-256 hex digest has its documented
64-character length; re-processing a candidate whose fingerprint is already a
session key is a no-op, not an error — the session, hence its cardinality and
every stored entry, is unchanged. -/
theorem fingerprint_deterministic_idempotent (impl : HashImpl) (decode : Decoder)
    (sess : Session) (invalid : List (String × Reject)) (file : UploadFile) :
    create_file_hash impl file.content file.name =
      create_file_hash impl file.content file.name ∧
    ((∀ s, (impl.sha256Hex s).length = 64) →
      (create_file_hash impl file.content file.name).length = 12) ∧
    ((sess.map Prod.fst).contains (create_file_hash impl file.content file.name) = true →
      processUpload impl decode (sess, invalid) file = (sess, invalid)) := by
  refine ⟨rfl, fun h => ?_, fun h => ?_⟩
  · unfold create_file_hash
    have h64 : (impl.sha256Hex (file.name ++ "_" ++ String.mk (repChars file.content.length)
        ++ "_" ++ impl.md5Hex file.content)).data.length = 64 := h _
    show ((impl.sha256Hex _).data.take 12).length = 12
    rw [List.length_take, h64]
    omega
  · unfold processUpload
    rw [if_pos h]

/-- C4 witness: with a 64-character digest oracle the fingerprint has 12
characters, and re-uploading a file whose fingerprint is already present
leaves the session untouched. -/
theorem fingerprint_deterministic_idempotent_witness :
    (create_file_hash ⟨fun _ => "zz", fun _ => String.mk (List.replicate 64 'a')⟩ [1] "f").length
      = 12 ∧
    processUpload ⟨fun _ => "zz", fun _ => String.mk (List.replicate 64 'a')⟩ toyDecode
      ([(String.mk (List.replicate 12 'a'), ⟨"f", 1, "100x100", "PNG", "RGB", [1],
        String.mk (List.replicate 12 'a')⟩)], []) ⟨"f", 1, [1]⟩ =
      ([(String.mk (List.replicate 12 'a'), ⟨"f", 1, "100x100", "PNG", "RGB", [1],
        String.mk (List.replicate 12 'a')⟩)], []) :=
  ⟨(fingerprint_deterministic_idempotent ⟨fun _ => "zz", fun _ => String.mk (List.replicate 64 'a')⟩
      toyDecode [] [] ⟨"f", 1, [1]⟩).2.1 (fun s => rfl),
   (fingerprint_deterministic_idempotent ⟨fun _ => "zz", fun _ => String.mk (List.replicate 64 'a')⟩
      toyDecode [(String.mk (List.replicate 12 'a'), ⟨"f", 1, "100x100", "PNG", "RGB", [1],
        String.mk (List.replicate 12 'a')⟩)] [] ⟨"f", 1, [1]⟩).2.2 (by decide)⟩

/-- Reduction of process_single_image when the input bytes are empty. -/
theorem process_empty_bytes (decode : Decoder) (encodePNG : DecodedImage → Except String Bytes)
    (api : Bytes → String → Nat → Except String DecodedImage)
    (rsave : DecodedImage → Except String Bytes)
    (image_bytes : Bytes) (prompt : String) (filename : String)
    (h : image_bytes.length = 0) :
    process_single_image decode encodePNG api rsave image_bytes prompt filename =
      .failure filename "Invalid image data format" := by
  unfold process_single_image
  rw [if_pos h]

/-- Reduction of process_single_image when the prompt is blank. -/
theorem process_blank_prompt (decode : Decoder) (encodePNG : DecodedImage → Except String Bytes)
    (api : Bytes → String → Nat → Except String DecodedImage)
    (rsave : DecodedImage → Except String Bytes)
    (image_bytes : Bytes) (prompt : String) (filename : String)
    (h1 : image_bytes.length ≠ 0) (h2 : pyStrip prompt = "") :
    process_single_image decode encodePNG api rsave image_bytes prompt filename =
      .failure filename "Empty prompt" := by
  unfold process_single_image
  rw [if_neg h1, if_pos (Or.inr h2)]

/-- Reduction of process_single_image past the input guards and a successful
decode. -/
theorem process_after_decode (decode : Decoder) (encodePNG : DecodedImage → Except String Bytes)
    (api : Bytes → String → Nat → Except String DecodedImage)
    (rsave : DecodedImage → Except String Bytes)
    (image_bytes : Bytes) (prompt : String) (filename : String) (image : DecodedImage)
    (h1 : image_bytes.length ≠ 0) (h2 : ¬ (prompt = "" ∨ pyStrip prompt = ""))
    (h3 : decode image_bytes = .ok image) :
    process_single_image decode encodePNG api rsave image_bytes prompt filename =
      (match encodePNG (prepImage image) with
      | .error e => .failure filename ("Image preprocessing failed: " ++ e)
      | .ok processed_bytes =>
        match apiLoop (attemptOnce (api processed_bytes (pyStrip prompt)) rsave) with
        | .ok r => .success filename r.2 r.1 image_bytes.length r.2.length
        | .error e => .failure filename (classify_error e).2) := by
  unfold process_single_image
  rw [if_neg h1, if_neg h2, h3]

/-- Reduction of process_single_image when the decoder fails: the item fails
with the preprocessing error. -/
theorem process_decode_err (decode : Decoder) (encodePNG : DecodedImage → Except String Bytes)
    (api : Bytes → String → Nat → Except String DecodedImage)
    (rsave : DecodedImage → Except String Bytes)
    (image_bytes : Bytes) (prompt : String) (filename : String) (e : String)
    (h1 : image_bytes.length ≠ 0) (h2 : ¬ (prompt = "" ∨ pyStrip prompt = ""))
    (h3 : decode image_bytes = .error e) :
    process_single_image decode encodePNG api rsave image_bytes prompt filename =
      .failure filename ("Image preprocessing failed: " ++ e) := by
  unfold process_single_image
  rw [if_neg h1, if_neg h2, h3]

/-- Reduction of process_single_image when re-encoding fails: the item fails
with the preprocessing error. -/
theorem process_encode_err (decode : Decoder) (encodePNG : DecodedImage → Except String Bytes)
    (api : Bytes → String → Nat → Except String DecodedImage)
    (rsave : DecodedImage → Except String Bytes)
    (image_bytes : Bytes) (prompt : String) (filename : String) (image : DecodedImage) (e : String)
    (h1 : image_bytes.length ≠ 0) (h2 : ¬ (prompt = "" ∨ pyStrip prompt = ""))
    (h3 : decode image_bytes = .ok image) (h4 : encodePNG (prepImage image) = .error e) :
    process_single_image decode encodePNG api rsave image_bytes prompt filename =
      .failure filename ("Image preprocessing failed: " ++ e) := by
  rw [process_after_decode decode encodePNG api rsave image_bytes prompt filename image h1 h2 h3,
    h4]

/-- Reduction of process_single_image when the retry loop gives up: the item
fails with the classified error message. -/
theorem process_api_err (decode : Decoder) (encodePNG : DecodedImage → Except String Bytes)
    (api : Bytes → String → Nat → Except String DecodedImage)
    (rsave : DecodedImage → Except String Bytes)
    (image_bytes : Bytes) (prompt : String) (filename : String) (image : DecodedImage)
    (processed_bytes : Bytes) (e : String)
    (h1 : image_bytes.length ≠ 0) (h2 : ¬ (prompt = "" ∨ pyStrip prompt = ""))
    (h3 : decode image_bytes = .ok image) (h4 : encodePNG (prepImage image) = .ok processed_bytes)
    (h5 : apiLoop (attemptOnce (api processed_bytes (pyStrip prompt)) rsave) = .error e) :
    process_single_image decode encodePNG api rsave image_bytes prompt filename =
      .failure filename (classify_error e).2 := by
  have hstep : process_single_image decode encodePNG api rsave image_bytes prompt filename =
      (match apiLoop (attemptOnce (api processed_bytes (pyStrip prompt)) rsave) with
      | .ok r => .success filename r.2 r.1 image_bytes.length r.2.length
      | .error e => .failure filename (classify_error e).2) := by
    rw [process_after_decode decode encodePNG api rsave image_bytes prompt filename image h1 h2 h3,
      h4]
  rw [hstep, h5]

/-- C1: a batch run appends exactly one result per session item, in the
session's iteration order; each item's result is a pure function of that item
alone, so nothing escapes the run and a failing item never disturbs the
others; and an item hit by a blank instruction, empty input bytes, a
normalization failure or a final remote failure gets a failure result. -/
theorem batch_one_result_per_item (decode : Decoder)
    (encodePNG : DecodedImage → Except String Bytes)
    (api : Bytes → String → Nat → Except String DecodedImage)
    (rsave : DecodedImage → Except String Bytes) (sess : Session) (prompt : String) :
    (runBatch decode encodePNG api rsave sess prompt).length = sess.length ∧
    (∀ i : Nat, (runBatch decode encodePNG api rsave sess prompt)[i]? =
      (sess[i]?).map (fun kv =>
        process_single_image decode encodePNG api rsave kv.2.bytes prompt kv.2.filename)) ∧
    (∀ (i : Nat) (kv : String × FileData), sess[i]? = some kv → pyStrip prompt = "" →
      ∃ msg, (runBatch decode encodePNG api rsave sess prompt)[i]? =
        some (.failure kv.2.filename msg)) ∧
    (∀ (i : Nat) (kv : String × FileData), sess[i]? = some kv → kv.2.bytes = [] →
      (runBatch decode encodePNG api rsave sess prompt)[i]? =
        some (.failure kv.2.filename "Invalid image data format")) ∧
    (∀ (i : Nat) (kv : String × FileData) (e : String), sess[i]? = some kv → kv.2.bytes ≠ [] →
      ¬ (prompt = "" ∨ pyStrip prompt = "") → decode kv.2.bytes = .error e →
      (runBatch decode encodePNG api rsave sess prompt)[i]? =
        some (.failure kv.2.filename ("Image preprocessing failed: " ++ e))) ∧
    (∀ (i : Nat) (kv : String × FileData) (image : DecodedImage) (pb : Bytes) (e : String),
      sess[i]? = some kv → kv.2.bytes ≠ [] →
      ¬ (prompt = "" ∨ pyStrip prompt = "") → decode kv.2.bytes = .ok image →
      encodePNG (prepImage image) = .ok pb →
      apiLoop (attemptOnce (api pb (pyStrip prompt)) rsave) = .error e →
      (runBatch decode encodePNG api rsave sess prompt)[i]? =
        some (.failure kv.2.filename (classify_error e).2)) := by
  have hmap : ∀ i : Nat, (runBatch decode encodePNG api rsave sess prompt)[i]? =
      (sess[i]?).map (fun kv =>
        process_single_image decode encodePNG api rsave kv.2.bytes prompt kv.2.filename) := by
    intro i; unfold runBatch; rw [List.getElem?_map]
  refine ⟨by unfold runBatch; simp, hmap, ?_, ?_, ?_, ?_⟩
  · intro i kv hkv h2
    rw [hmap i, hkv]
    by_cases hb : kv.2.bytes.length = 0
    · exact ⟨"Invalid image data format", by
        simp only [Option.map_some']
        rw [process_empty_bytes _ _ _ _ _ _ _ hb]⟩
    · exact ⟨"Empty prompt", by
        simp only [Option.map_some']
        rw [process_blank_prompt _ _ _ _ _ _ _ hb h2]⟩
  · intro i kv hkv hb
    rw [hmap i, hkv]
    simp only [Option.map_some']
    rw [process_empty_bytes _ _ _ _ _ _ _ (by simp [hb])]
  · intro i kv e hkv hb h2 h3
    rw [hmap i, hkv]
    simp only [Option.map_some']
    rw [process_decode_err _ _ _ _ _ _ _ _
      (fun hc => hb (List.length_eq_zero.mp hc)) h2 h3]
  · intro i kv image pb e hkv hb h2 h3 h4 h5
    rw [hmap i, hkv]
    simp only [Option.map_some']
    rw [process_api_err _ _ _ _ _ _ _ image pb e
      (fun hc => hb (List.length_eq_zero.mp hc)) h2 h3 h4 h5]

/-- C1 witness: in a two-item batch whose first item carries empty bytes, the
run yields two results, the first a failure, the second still processed. -/
theorem batch_one_result_per_item_witness :
    (runBatch toyDecode (fun _ => .ok [0]) (fun _ _ _ => .ok ⟨1, 1, none, "RGB"⟩)
      (fun _ => .ok [5])
      [("h1", ⟨"a.png", 1, "1x1", "PNG", "RGB", [], "h1"⟩),
       ("h2", ⟨"b.png", 1, "1x1", "PNG", "RGB", [2], "h2"⟩)] "edit").length = 2 ∧
    (runBatch toyDecode (fun _ => .ok [0]) (fun _ _ _ => .ok ⟨1, 1, none, "RGB"⟩)
      (fun _ => .ok [5])
      [("h1", ⟨"a.png", 1, "1x1", "PNG", "RGB", [], "h1"⟩),
       ("h2", ⟨"b.png", 1, "1x1", "PNG", "RGB", [2], "h2"⟩)] "edit")[0]? =
      some (.failure "a.png" "Invalid image data format") :=
  ⟨(batch_one_result_per_item toyDecode (fun _ => .ok [0])
      (fun _ _ _ => .ok ⟨1, 1, none, "RGB"⟩) (fun _ => .ok [5])
      [("h1", ⟨"a.png", 1, "1x1", "PNG", "RGB", [], "h1"⟩),
       ("h2", ⟨"b.png", 1, "1x1", "PNG", "RGB", [2], "h2"⟩)] "edit").1,
   (batch_one_result_per_item toyDecode (fun _ => .ok [0])
      (fun _ _ _ => .ok ⟨1, 1, none, "RGB"⟩) (fun _ => .ok [5])
      [("h1", ⟨"a.png", 1, "1x1", "PNG", "RGB", [], "h1"⟩),
       ("h2", ⟨"b.png", 1, "1x1", "PNG", "RGB", [2], "h2"⟩)] "edit").2.2.2.1 0
      ("h1", ⟨"a.png", 1, "1x1", "PNG", "RGB", [], "h1"⟩) (by simp) rfl⟩

/-- C2: the retry loop consumes at most max_retries = 2 attempts — one call on
first-attempt success, two otherwise, its outcome depending only on attempts
0 and 1 — and a final failure message is assigned by case-insensitive
substring inspection, in the source's precedence order, to exactly one of the
six kinds: parameter/images, then timeout, then quota/rate-limit, then
unauthorized/token, then model, with anything unmatched becoming the unknown
kind carrying the message verbatim; the failing item's result carries the
classified message. -/
theorem remote_retry_and_classification
    (att att' : Nat → Except String (DecodedImage × Bytes)) (msg : String)
    (decode : Decoder) (encodePNG : DecodedImage → Except String Bytes)
    (api : Bytes → String → Nat → Except String DecodedImage)
    (rsave : DecodedImage → Except String Bytes)
    (image_bytes : Bytes) (prompt : String) (filename : String) :
    callsMade att ≤ max_retries ∧
    (att 0 = att' 0 → att 1 = att' 1 → apiLoop att = apiLoop att') ∧
    ((hasSub "images" (lowerStr msg) || hasSub "parameter" (lowerStr msg)) = true →
      classify_error msg =
        (.incompatibleFormat, "API parameter error - image format may be incompatible")) ∧
    ((hasSub "images" (lowerStr msg) || hasSub "parameter" (lowerStr msg)) = false →
      hasSub "timeout" (lowerStr msg) = true →
      classify_error msg = (.timeout, "Request timeout - try with a smaller image")) ∧
    ((hasSub "images" (lowerStr msg) || hasSub "parameter" (lowerStr msg)) = false →
      hasSub "timeout" (lowerStr msg) = false →
      (hasSub "quota" (lowerStr msg) || hasSub "rate limit" (lowerStr msg)) = true →
      classify_error msg =
        (.quotaExceeded, "API quota exceeded - please wait before trying again")) ∧
    ((hasSub "images" (lowerStr msg) || hasSub "parameter" (lowerStr msg)) = false →
      hasSub "timeout" (lowerStr msg) = false →
      (hasSub "quota" (lowerStr msg) || hasSub "rate limit" (lowerStr msg)) = false →
      (hasSub "unauthorized" (lowerStr msg) || hasSub "token" (lowerStr msg)) = true →
      classify_error msg =
        (.authenticationError, "Authentication error - check your HF_TOKEN")) ∧
    ((hasSub "images" (lowerStr msg) || hasSub "parameter" (lowerStr msg)) = false →
      hasSub "timeout" (lowerStr msg) = false →
      (hasSub "quota" (lowerStr msg) || hasSub "rate limit" (lowerStr msg)) = false →
      (hasSub "unauthorized" (lowerStr msg) || hasSub "token" (lowerStr msg)) = false →
      hasSub "model" (lowerStr msg) = true →
      classify_error msg = (.modelUnavailable, "Model not available - try again later")) ∧
    ((hasSub "images" (lowerStr msg) || hasSub "parameter" (lowerStr msg)) = false →
      hasSub "timeout" (lowerStr msg) = false →
      (hasSub "quota" (lowerStr msg) || hasSub "rate limit" (lowerStr msg)) = false →
      (hasSub "unauthorized" (lowerStr msg) || hasSub "token" (lowerStr msg)) = false →
      hasSub "model" (lowerStr msg) = false →
      classify_error msg = (.unknownRemoteError, "API error: " ++ msg)) ∧
    (∀ image pb e, image_bytes.length ≠ 0 → ¬ (prompt = "" ∨ pyStrip prompt = "") →
      decode image_bytes = .ok image → encodePNG (prepImage image) = .ok pb →
      apiLoop (attemptOnce (api pb (pyStrip prompt)) rsave) = .error e →
      process_single_image decode encodePNG api rsave image_bytes prompt filename =
        .failure filename (classify_error e).2) := by
  refine ⟨?_, ?_, ?_, ?_, ?_, ?_, ?_, ?_, ?_⟩
  · unfold callsMade max_retries
    cases hc : att 0 <;> simp
  · intro h0 h1
    unfold apiLoop
    rw [h0, h1]
  · intro h1
    simp only [classify_error]
    rw [if_pos h1]
  · intro h1 h2
    simp only [classify_error]
    rw [if_neg (by simp [h1]), if_pos h2]
  · intro h1 h2 h3
    simp only [classify_error]
    rw [if_neg (by simp [h1]), if_neg (by simp [h2]), if_pos h3]
  · intro h1 h2 h3 h4
    simp only [classify_error]
    rw [if_neg (by simp [h1]), if_neg (by simp [h2]), if_neg (by simp [h3]), if_pos h4]
  · intro h1 h2 h3 h4 h5
    simp only [classify_error]
    rw [if_neg (by simp [h1]), if_neg (by simp [h2]), if_neg (by simp [h3]),
      if_neg (by simp [h4]), if_pos h5]
  · intro h1 h2 h3 h4 h5
    simp only [classify_error]
    rw [if_neg (by simp [h1]), if_neg (by simp [h2]), if_neg (by simp [h3]),
      if_neg (by simp [h4]), if_neg (by simp [h5])]
  · intro image pb e h1 h2 h3 h4 h5
    exact process_api_err decode encodePNG api rsave image_bytes prompt filename image pb e
      h1 h2 h3 h4 h5

/-- C2 witness: a rate-limit message failing both attempts is classified as
quota exhaustion and the item's result carries that message. -/
theorem remote_retry_and_classification_witness :
    callsMade (fun _ => .error "Rate limit reached") ≤ max_retries ∧
    classify_error "Rate limit reached" =
      (.quotaExceeded, "API quota exceeded - please wait before trying again") ∧
    process_single_image toyDecode (fun _ => .ok [0])
      (fun _ _ _ => .error "Rate limit reached") (fun _ => .ok [5]) [7] "edit" "a.png" =
      .failure "a.png" "API quota exceeded - please wait before trying again" := by
  have H := remote_retry_and_classification (fun _ => .error "Rate limit reached")
    (fun _ => .error "Rate limit reached") "Rate limit reached" toyDecode (fun _ => .ok [0])
    (fun _ _ _ => .error "Rate limit reached") (fun _ => .ok [5]) [7] "edit" "a.png"
  refine ⟨H.1, H.2.2.2.2.1 (by decide) (by decide) (by decide), ?_⟩
  exact H.2.2.2.2.2.2.2.2 ⟨100, 100, some "PNG", "RGB"⟩ [0] "Rate limit reached"
    (by decide) (by decide) rfl rfl rfl

/-- C5 counterexample: the LA mode (grayscale with alpha) carries an alpha
channel, yet normalization sends it through the RGB conversion branch, not the
white-composite branch the claim requires of every alpha image. -/
theorem alpha_composite_counterexample :
    pilHasAlpha "LA" = true ∧ prepOp "LA" = PrepOp.convertRGB ∧
      ¬ prepOp "LA" = PrepOp.whiteComposite :=
  ⟨by decide, by decide, by decide⟩

/-- C5 (amended): normalization outputs an RGB or grayscale image re-encoded
as PNG: RGB and L images pass through unchanged; RGBA images — alone among the
alpha modes — are composited onto an opaque white background through their
alpha mask; every other mode, including the alpha-carrying LA, is converted to
RGB; and a decode or re-encode failure at this stage fails only that item with
the preprocessing-failed error. -/
theorem normalization_modes (image : DecodedImage) (decode : Decoder)
    (encodePNG : DecodedImage → Except String Bytes)
    (api : Bytes → String → Nat → Except String DecodedImage)
    (rsave : DecodedImage → Except String Bytes)
    (image_bytes : Bytes) (prompt : String) (filename : String) :
    (image.mode = "RGB" ∨ image.mode = "L" → prepImage image = image) ∧
    (image.mode = "RGBA" →
      prepOp image.mode = .whiteComposite ∧ (prepImage image).mode = "RGB") ∧
    (image.mode ≠ "RGB" → image.mode ≠ "L" → image.mode ≠ "RGBA" →
      prepOp image.mode = .convertRGB ∧ (prepImage image).mode = "RGB") ∧
    ((prepImage image).mode = "RGB" ∨ (prepImage image).mode = "L") ∧
    (image_bytes.length ≠ 0 → ¬ (prompt = "" ∨ pyStrip prompt = "") → ∀ e,
      decode image_bytes = .error e →
      process_single_image decode encodePNG api rsave image_bytes prompt filename =
        .failure filename ("Image preprocessing failed: " ++ e)) ∧
    (image_bytes.length ≠ 0 → ¬ (prompt = "" ∨ pyStrip prompt = "") → ∀ e,
      decode image_bytes = .ok image → encodePNG (prepImage image) = .error e →
      process_single_image decode encodePNG api rsave image_bytes prompt filename =
        .failure filename ("Image preprocessing failed: " ++ e)) := by
  refine ⟨?_, ?_, ?_, ?_, ?_, ?_⟩
  · intro h; unfold prepImage prepOp; rw [if_pos h]
  · intro h
    constructor
    · unfold prepOp; rw [if_neg (by rw [h]; decide), if_pos h]
    · unfold prepImage prepOp; rw [if_neg (by rw [h]; decide), if_pos h]
  · intro h1 h2 h3
    constructor
    · unfold prepOp; rw [if_neg (fun hc => Or.elim hc h1 h2), if_neg h3]
    · unfold prepImage prepOp; rw [if_neg (fun hc => Or.elim hc h1 h2), if_neg h3]
  · by_cases h : image.mode = "RGB" ∨ image.mode = "L"
    · unfold prepImage prepOp; rw [if_pos h]; exact h
    · by_cases h2 : image.mode = "RGBA"
      · unfold prepImage prepOp; rw [if_neg h, if_pos h2]; left; rfl
      · unfold prepImage prepOp; rw [if_neg h, if_neg h2]; left; rfl
  · intro h1 h2 e h3
    exact process_decode_err decode encodePNG api rsave image_bytes prompt filename e h1 h2 h3
  · intro h1 h2 e h3 h4
    exact process_encode_err decode encodePNG api rsave image_bytes prompt filename image e
      h1 h2 h3 h4

/-- C5 witness: a decoder failure during normalization yields that item's
preprocessing-failed result. -/
theorem normalization_modes_witness :
    process_single_image (fun _ => .error "truncated png") (fun _ => .ok [0])
      (fun _ _ _ => .ok ⟨1, 1, none, "RGB"⟩) (fun _ => .ok [5]) [7] "edit" "a.png" =
      .failure "a.png" ("Image preprocessing failed: " ++ "truncated png") :=
  (normalization_modes ⟨1, 1, none, "RGB"⟩ (fun _ => .error "truncated png") (fun _ => .ok [0])
    (fun _ _ _ => .ok ⟨1, 1, none, "RGB"⟩) (fun _ => .ok [5]) [7] "edit" "a.png").2.2.2.2.1
    (by decide) (by decide) "truncated png" rfl

/-- C8: an absent or empty HF_TOKEN stops startup with the distinct
missing-credential condition — not the construction-failure condition —
whatever every oracle does, so no remote call is consulted and no batch ever
begins. -/
theorem missing_credential_fails_fast (env : String → Option String)
    (connect : String → Except String Client) (decode : Decoder)
    (encodePNG : DecodedImage → Except String Bytes)
    (api : Bytes → String → Nat → Except String DecodedImage)
    (rsave : DecodedImage → Except String Bytes) (sess : Session) (prompt : String) :
    (env "HF_TOKEN" = none ∨ env "HF_TOKEN" = some "" →
      initializeClient env connect = .error .missingCredential ∧
      runApp env connect decode encodePNG api rsave sess prompt =
        .error .missingCredential) ∧
    (∀ msg, InitError.missingCredential ≠ InitError.initFailed msg) := by
  constructor
  · have hinit : env "HF_TOKEN" = none ∨ env "HF_TOKEN" = some "" →
        initializeClient env connect = .error .missingCredential := by
      rintro (h | h)
      · unfold initializeClient; rw [h]
      · unfold initializeClient; rw [h]; rfl
    intro h
    refine ⟨hinit h, ?_⟩
    unfold runApp
    rw [hinit h]
  · intro msg
    exact fun hc => InitError.noConfusion hc

/-- C8 witness: with HF_TOKEN unset the app stops at startup with the
missing-credential condition and returns no batch results. -/
theorem missing_credential_fails_fast_witness :
    runApp (fun _ => none) (fun t => .ok ⟨t⟩) toyDecode (fun _ => .ok [])
      (fun _ _ _ => .error "never called") (fun _ => .ok []) [] "x" =
      .error .missingCredential :=
  ((missing_credential_fails_fast (fun _ => none) (fun t => .ok ⟨t⟩) toyDecode
      (fun _ => .ok []) (fun _ _ _ => .error "never called") (fun _ => .ok []) [] "x").1
    (.inl rfl)).2

/-- Digit characters decode back to their digit and are recognized as
digits. -/
theorem digit_toNat_isDigit (d : Nat) (h : d < 10) :
    (digitChar d).toNat - 48 = d ∧ (digitChar d).isDigit = true := by
  interval_cases d <;> exact ⟨by decide, by decide⟩

/-- Folding the digit-reading step over a printed number recovers it (with an
arbitrary accumulator). -/
theorem parse_repAux : ∀ (fuel n a : Nat), n < fuel →
    (repCharsAux fuel n).foldl (fun a c => 10 * a + (c.toNat - 48)) a =
      a * 10 ^ (repCharsAux fuel n).length + n := by
  intro fuel
  induction fuel with
  | zero => intro n a h; omega
  | succ f ih =>
    intro n a h
    by_cases h10 : n < 10
    · simp only [repCharsAux, if_pos h10, List.foldl_cons, List.foldl_nil,
        List.length_cons, List.length_nil]
      rw [(digit_toNat_isDigit n h10).1, Nat.zero_add, pow_one]
      omega
    · simp only [repCharsAux, if_neg h10]
      rw [List.foldl_append, ih (n / 10) a (by omega)]
      simp only [List.foldl_cons, List.foldl_nil]
      rw [(digit_toNat_isDigit (n % 10) (by omega)).1,
        List.length_append, List.length_cons, List.length_nil, Nat.zero_add, pow_succ]
      have hn : 10 * (n / 10) + n % 10 = n := by omega
      calc 10 * (a * 10 ^ (repCharsAux f (n / 10)).length + n / 10) + n % 10
          = a * (10 ^ (repCharsAux f (n / 10)).length * 10) + (10 * (n / 10) + n % 10) := by
            ring
        _ = a * (10 ^ (repCharsAux f (n / 10)).length * 10) + n := by rw [hn]

/-- Reading the decimal rendering back yields the number. -/
theorem parse_rep (n : Nat) : parseNum (repChars n) = n := by
  unfold parseNum repChars
  rw [parse_repAux (n + 1) n 0 (by omega)]
  simp

/-- Reading the zero-padded rendering back yields the number. -/
theorem parse_py02d (n : Nat) : parseNum (py02d n) = n := by
  by_cases h : n < 10
  · unfold py02d parseNum repChars
    rw [if_pos h, List.foldl_cons, parse_repAux (n + 1) n _ (by omega),
      show (10 * 0 + (('0'.toNat) - 48)) = 0 from by decide, Nat.zero_mul, Nat.zero_add]
  · unfold py02d
    rw [if_neg h]
    exact parse_rep n

/-- Every character of a printed number is a digit. -/
theorem rep_digitsAux : ∀ (fuel n : Nat) (c : Char), n < fuel → c ∈ repCharsAux fuel n →
    c.isDigit = true := by
  intro fuel
  induction fuel with
  | zero => intro n c h hc; omega
  | succ f ih =>
    intro n c h hc
    by_cases h10 : n < 10
    · simp only [repCharsAux, if_pos h10, List.mem_singleton] at hc
      subst hc
      exact (digit_toNat_isDigit n h10).2
    · simp only [repCharsAux, if_neg h10, List.mem_append, List.mem_singleton] at hc
      rcases hc with hc | hc
      · exact ih (n / 10) c (by omega) hc
      · subst hc
        exact (digit_toNat_isDigit (n % 10) (by omega)).2

/-- Every character of the zero-padded rendering is a digit. -/
theorem py02d_digits (n : Nat) (c : Char) (hc : c ∈ py02d n) : c.isDigit = true := by
  unfold py02d repChars at hc
  by_cases h : n < 10
  · rw [if_pos h] at hc
    rcases List.mem_cons.mp hc with hc | hc
    · subst hc; decide
    · exact rep_digitsAux (n + 1) n c (by omega) hc
  · rw [if_neg h] at hc
    exact rep_digitsAux (n + 1) n c (by omega) hc

/-- takeWhile over a cons whose head satisfies or fails the test. -/
theorem takeWhile_cons_eq (p : Char → Bool) (a : Char) (l : List Char) :
    (a :: l).takeWhile p = if p a then a :: l.takeWhile p else [] := by
  simp [List.takeWhile_cons]

/-- takeWhile passes over a block that satisfies the test throughout. -/
theorem takeWhile_append_all {p : Char → Bool} : ∀ (l₁ l₂ : List Char),
    (∀ c ∈ l₁, p c = true) → (l₁ ++ l₂).takeWhile p = l₁ ++ l₂.takeWhile p := by
  intro l₁
  induction l₁ with
  | nil => intro l₂ h; simp
  | cons a l ih =>
    intro l₂ h
    rw [List.cons_append, takeWhile_cons_eq, if_pos (h a (by simp)), List.cons_append,
      ih l₂ (fun c hc => h c (by simp [hc]))]

/-- The numeric prefix of a ZIP entry name recovers its 1-based index. -/
theorem nameIdx_zip (n : Nat) (fn : String) : nameIdx (zip_filename n fn) = n := by
  unfold nameIdx zip_filename
  have hd : (String.mk (py02d n ++ "_edited_".data ++ (sanitize (splitextBase fn)).data
      ++ ".png".data)).data =
      py02d n ++ ("_edited_".data ++ ((sanitize (splitextBase fn)).data ++ ".png".data)) := by
    simp [List.append_assoc]
  rw [hd, takeWhile_append_all _ _ (fun c hc => py02d_digits n c hc)]
  have h2 : ("_edited_".data ++ ((sanitize (splitextBase fn)).data ++ ".png".data)).takeWhile
      Char.isDigit = [] := by
    have he : "_edited_".data = '_' :: "edited_".data := rfl
    rw [he, List.cons_append, takeWhile_cons_eq, if_neg (by decide)]
  rw [h2, List.append_nil]
  exact parse_py02d n

/-- Every entry the archive loop emits from position k onward has a name whose
index exceeds k. -/
theorem zipEntries_idx_gt : ∀ (results : List PResult) (k : Nat) (p : String × Bytes),
    p ∈ zipEntries k results → k < nameIdx p.1 := by
  intro results
  induction results with
  | nil => intro k p hp; simp [zipEntries] at hp
  | cons r rest ih =>
    intro k p hp
    cases r with
    | success fn bs io os rs =>
      simp only [zipEntries] at hp
      rcases List.mem_cons.mp hp with hp | hp
      · subst hp
        show k < nameIdx (zip_filename (k + 1) fn)
        rw [nameIdx_zip]
        omega
      · have := ih (k + 1) p hp
        omega
    | failure fn err =>
      simp only [zipEntries] at hp
      have := ih (k + 1) p hp
      omega

/-- The names the archive loop emits are pairwise distinct. -/
theorem zipEntries_names_nodup : ∀ (results : List PResult) (k : Nat),
    ((zipEntries k results).map Prod.fst).Nodup := by
  intro results
  induction results with
  | nil => intro k; simp [zipEntries]
  | cons r rest ih =>
    intro k
    cases r with
    | success fn bs io os rs =>
      simp only [zipEntries, List.map_cons]
      refine List.nodup_cons.mpr ⟨?_, ih (k + 1)⟩
      intro hmem
      rcases List.mem_map.mp hmem with ⟨p, hp, hfst⟩
      have hgt := zipEntries_idx_gt rest (k + 1) p hp
      rw [hfst, nameIdx_zip] at hgt
      omega
    | failure fn err =>
      simp only [zipEntries]
      exact ih (k + 1)

/-- With only successful results, the archive has exactly one entry per
result. -/
theorem zipEntries_length : ∀ (results : List PResult) (k : Nat),
    (∀ r ∈ results, r.isSucc = true) → (zipEntries k results).length = results.length := by
  intro results
  induction results with
  | nil => intro k hall; simp [zipEntries]
  | cons r rest ih =>
    intro k hall
    cases r with
    | success fn bs io os rs =>
      simp only [zipEntries, List.length_cons]
      rw [ih (k + 1) (fun x hx => hall x (by simp [hx]))]
    | failure fn err =>
      have hfail := hall (.failure fn err) (by simp)
      simp [PResult.isSucc] at hfail

/-- With only successful results, the i-th entry is the i-th result's bytes
under the indexed name. -/
theorem zipEntries_get : ∀ (results : List PResult) (k i : Nat) (fn : String) (bs : Bytes)
    (io : DecodedImage) (os rs : Nat), (∀ r ∈ results, r.isSucc = true) →
    results[i]? = some (.success fn bs io os rs) →
    (zipEntries k results)[i]? = some (zip_filename (k + i + 1) fn, bs) := by
  intro results
  induction results with
  | nil => intro k i fn bs io os rs hall hres; simp at hres
  | cons r rest ih =>
    intro k i fn bs io os rs hall hres
    cases r with
    | success fn' bs' io' os' rs' =>
      cases i with
      | zero =>
        simp only [List.getElem?_cons_zero, Option.some.injEq, PResult.success.injEq] at hres
        obtain ⟨h1, h2, h3, h4, h5⟩ := hres
        subst h1; subst h2
        simp [zipEntries]
      | succ j =>
        simp only [List.getElem?_cons_succ] at hres
        simp only [zipEntries, List.getElem?_cons_succ]
        have hrec := ih (k + 1) j fn bs io os rs (fun x hx => hall x (by simp [hx])) hres
        have harith : k + 1 + j + 1 = k + (j + 1) + 1 := by omega
        rw [harith] at hrec
        exact hrec
    | failure fn' err' =>
      have hfail := hall (.failure fn' err') (by simp)
      simp [PResult.isSucc] at hfail

/-- Sanitization emits only allowed characters, all drawn from its input. -/
theorem sanitize_chars (s : String) (c : Char) (hc : c ∈ (sanitize s).data) :
    allowedChar c = true ∧ c ∈ s.data := by
  have hc' : c ∈ ((((s.data.filter allowedChar).dropWhile
      isSpaceChar).reverse.dropWhile isSpaceChar).reverse) := hc
  rw [List.mem_reverse] at hc'
  have hc2 := (List.dropWhile_sublist isSpaceChar).subset hc'
  rw [List.mem_reverse] at hc2
  have hc3 := (List.dropWhile_sublist isSpaceChar).subset hc2
  exact ⟨(List.mem_filter.mp hc3).2, (List.mem_filter.mp hc3).1⟩

/-- C6: the archive builder writes one entry per successful result, named with
the 1-based index zero-padded to two digits, then "_edited_", then the
sanitized extension-stripped base filename, then ".png"; sanitization keeps
only alphanumerics, spaces, hyphens and underscores drawn from the base name;
entry names are pairwise distinct even when input filenames collide; and an
empty input yields an empty archive, not an error. -/
theorem archive_entries (results : List PResult) :
    create_zip_download ([] : List PResult) = [] ∧
    ((∀ r ∈ results, r.isSucc = true) →
      (create_zip_download results).length = results.length ∧
      ∀ (i : Nat) (fn : String) (bs : Bytes) (io : DecodedImage) (os rs : Nat),
        results[i]? = some (.success fn bs io os rs) →
        (create_zip_download results)[i]? = some (zip_filename (i + 1) fn, bs)) ∧
    ((create_zip_download results).map Prod.fst).Nodup ∧
    (∀ (s : String) (c : Char), c ∈ (sanitize s).data → allowedChar c = true ∧ c ∈ s.data) ∧
    (∀ (n : Nat) (fn : String), zip_filename n fn =
      String.mk (py02d n ++ "_edited_".data ++ (sanitize (splitextBase fn)).data
        ++ ".png".data)) := by
  refine ⟨rfl, fun hall => ⟨zipEntries_length results 0 hall, ?_⟩,
    zipEntries_names_nodup results 0, sanitize_chars, fun n fn => rfl⟩
  intro i fn bs io os rs hres
  have hrec := zipEntries_get results 0 i fn bs io os rs hall hres
  have harith : 0 + i + 1 = i + 1 := by omega
  rw [harith] at hrec
  exact hrec

/-- C6 witness: one successful result produces the single entry
01_edited_photo.png carrying its bytes. -/
theorem archive_entries_witness :
    (create_zip_download [PResult.success "photo.jpg" [9] ⟨1, 1, none, "RGB"⟩ 3 1])[0]? =
      some (zip_filename 1 "photo.jpg", [9]) ∧
    zip_filename 1 "photo.jpg" = "01_edited_photo.png" :=
  ⟨((archive_entries [PResult.success "photo.jpg" [9] ⟨1, 1, none, "RGB"⟩ 3 1]).2.1
      (by decide)).2 0 "photo.jpg" [9] ⟨1, 1, none, "RGB"⟩ 3 1 (by simp),
   by decide⟩
